import Mathlib

/-!
Verification of the `sk-timocom-integration-be` repository.

Shallow embedding of the parts of the code the claims refer to:

* the bulk freight-offer creation handler
  (`POST /api/timocom/freight-offers/bulk`, `src/api/routes/timocom/freight-offers.ts`,
  lines 140-225): batches of `maxConcurrent` items, one retry per item after a
  fixed 1-second delay, aggregate `{total, created, failed, createdOffers, failures}`;
* the delete-all handlers (`freight-offers.ts` lines 228-323 and the generic
  `createDeleteAllHandler`): confirmation guard, empty-list early return,
  sequential delete loop;
* the count validation of `POST /api/generate/freight` (`src/api/routes/generate.ts`,
  lines 45-56);
* the CSV-to-freight-offer generator (`generate-freight-offers` script):
  row filtering, direct conversion of rows, seeded variations, and the
  zero-usable-rows failure path.

Modelling conventions:

* JavaScript numbers are modelled as `ℚ`.  `Math.sin` is an unspecified
  parameter `sinVal : ℕ → ℚ`: the code only ever uses it through
  `x - Math.floor(x)`, which lies in `[0, 1)` for every possible value, so all
  proved facts hold for the true sine.
* Calendar dates are modelled as day numbers (`ℕ`); the code turns a `Date`
  into the ISO string `toISOString().split('T')[0]`, an injective image of the
  day number, so equality/order of day numbers is equality/order of the strings.
  `new Date()` readings are supplied by a `clock : ℕ → ℕ` giving the millisecond
  timestamp observed while processing item `i`.
* The external TIMOCOM API is an oracle (`CreateApi`, `DeleteApi`): for each
  item and attempt it either resolves with a payload or rejects with an error
  message (`getErrorMessage`).  Fixed-duration `setTimeout` pacing delays do not
  affect any value and are not modelled.
* Within a batch `Promise.all` preserves input order for `results`; the
  `failed` array is pushed in completion order, which concurrency leaves
  unconstrained inside a batch.  The model fixes index order inside a batch;
  the claims only use counts and per-index membership, which do not depend on
  that order.
-/

namespace Timocom

/-! ## Bulk submission (`POST /freight-offers/bulk`) -/

/-- Outcome of one call to `client.createFreightOffer(offer)`: the resolved
response (its `data` field) or the thrown error's message. -/
inductive AttemptResult (β : Type) where
  | ok (data : β)
  | err (msg : String)
deriving DecidableEq

/-- The external create endpoint as the bulk handler can observe it: for each
item (its `actualIndex` and payload) the outcome of the first attempt and, if
the code gets there, of the retry attempt. -/
structure CreateApi (α β : Type) where
  first : Nat → α → AttemptResult β
  retry : Nat → α → AttemptResult β

/-- One element of the handler's `results` array:
`{ index, success, data?, error? }`. -/
structure ItemResult (β : Type) where
  index : Nat
  success : Bool
  data : Option β
  error : Option String
deriving DecidableEq

/-- One element of the handler's `failed` array: `{ index, error }`. -/
structure FailureEntry where
  index : Nat
  error : String
deriving DecidableEq

/-- What one per-item task produces: its entry of `results`, its contribution
to `failed` (at most one entry), and how many times it called the create
endpoint. -/
structure ItemTrace (β : Type) where
  result : ItemResult β
  failure : Option FailureEntry
  createCalls : Nat
deriving DecidableEq

/-- The per-item task `batch.map(async (offer, index) => ...)` of the bulk
handler: first attempt; on failure wait 1 second and retry exactly once; if the
retry also fails, push `{index, error: "Initial: ..., Retry: ..."}` onto
`failed` and return an unsuccessful result. -/
def processItem (api : CreateApi α β) (actualIndex : Nat) (offer : α) : ItemTrace β :=
  match api.first actualIndex offer with
  | .ok d =>
      { result := { index := actualIndex, success := true, data := some d, error := none }
        failure := none
        createCalls := 1 }
  | .err e1 =>
      match api.retry actualIndex offer with
      | .ok d =>
          { result := { index := actualIndex, success := true, data := some d, error := none }
            failure := none
            createCalls := 2 }
      | .err e2 =>
          { result := { index := actualIndex, success := false, data := none, error := some e2 }
            failure := some { index := actualIndex
                              error := "Initial: " ++ e1 ++ ", Retry: " ++ e2 }
            createCalls := 2 }

/-- `batch.map((offer, index) => task(i + index, offer))` where `i` is the
index of the batch's first element in `offers`; `Promise.all` returns the
per-item values in this input order. -/
def processBatch (api : CreateApi α β) : List α → Nat → List (ItemTrace β)
  | [], _ => []
  | offer :: rest, i => processItem api i offer :: processBatch api rest (i + 1)

/-- The batching loop
`for (let i = 0; i < offers.length; i += maxConcurrent) { ... }` with
`batch = offers.slice(i, i + maxConcurrent)`.  The JavaScript loop has no
iteration bound of its own; `fuel` bounds the number of iterations here, and a
run that would not terminate (e.g. `maxConcurrent = 0` on a non-empty array)
shows up as `none` for every fuel. -/
def bulkLoop (api : CreateApi α β) (maxConcurrent : Nat) :
    Nat → List α → Nat → Option (List (ItemTrace β))
  | _, [], _ => some []
  | 0, _ :: _, _ => none
  | fuel + 1, offer :: rest, i =>
      match bulkLoop api maxConcurrent fuel ((offer :: rest).drop maxConcurrent)
          (i + maxConcurrent) with
      | none => none
      | some tail => some (processBatch api ((offer :: rest).take maxConcurrent) i ++ tail)

/-- Number of iterations the batching loop performs on `K` offers:
`⌈K / maxConcurrent⌉`. -/
def batchesNeeded (K maxConcurrent : Nat) : Nat :=
  (K + maxConcurrent - 1) / maxConcurrent

/-- The `results` object of the bulk handler's JSON response. -/
structure BulkResults (β : Type) where
  total : Nat
  created : Nat
  failed : Nat
  createdOffers : List (Option β)
  failures : List FailureEntry
deriving DecidableEq

/-- Outcome of `POST /freight-offers/bulk`: 400 when `offers` is missing or
empty; the aggregate response otherwise; `diverges` when the loop would not
terminate (the fuel `batchesNeeded`, sufficient for every positive
`maxConcurrent`, runs out). -/
inductive BulkOutcome (β : Type) where
  | badRequest
  | diverges
  | completed (r : BulkResults β)
deriving DecidableEq

/-- The bulk handler: empty-array guard, batching loop, aggregation
(`total: offers.length`, `created: results.filter(r => r.success).length`,
`failed: failed.length`, `createdOffers: successes mapped to their data`,
`failures: failed`). -/
def bulkHandler (api : CreateApi α β) (offers : List α) (maxConcurrent : Nat) :
    BulkOutcome β :=
  if offers.isEmpty then .badRequest
  else
    match bulkLoop api maxConcurrent (batchesNeeded offers.length maxConcurrent) offers 0 with
    | none => .diverges
    | some traces =>
        let results := traces.map (·.result)
        let failedList := traces.filterMap (·.failure)
        .completed
          { total := offers.length
            created := (results.filter (·.success)).length
            failed := failedList.length
            createdOffers := (results.filter (·.success)).map (·.data)
            failures := failedList }

/-- Number of items of `offers` for which the first or the retry attempt of the
bulk handler succeeds. -/
def successCount (api : CreateApi α β) (offers : List α) : Nat :=
  ((processBatch api offers 0).filter (·.result.success)).length

/-- Number of items of `offers` for which both attempts of the bulk handler
fail. -/
def failureCount (api : CreateApi α β) (offers : List α) : Nat :=
  ((processBatch api offers 0).filterMap (·.failure)).length

/-! ### Structural lemmas about the batching loop -/

theorem processBatch_append (api : CreateApi α β) (xs ys : List α) (i : Nat) :
    processBatch api (xs ++ ys) i = processBatch api xs i ++ processBatch api ys (i + xs.length) := by
  induction xs generalizing i with
  | nil => simp [processBatch]
  | cons x xs ih =>
      have harith : i + (xs.length + 1) = i + 1 + xs.length := by omega
      simp only [List.cons_append, processBatch, List.length_cons, List.append_eq,
        ih (i + 1), harith]

theorem processBatch_length (api : CreateApi α β) (offers : List α) (i : Nat) :
    (processBatch api offers i).length = offers.length := by
  induction offers generalizing i with
  | nil => rfl
  | cons o rest ih => simp [processBatch, ih]

/-- Each per-item task either succeeds (and contributes nothing to `failed`) or
fails twice (and contributes exactly one entry). -/
theorem processItem_dichotomy (api : CreateApi α β) (i : Nat) (offer : α) :
    ((processItem api i offer).result.success = true ∧ (processItem api i offer).failure = none) ∨
      ((processItem api i offer).result.success = false ∧
        ∃ f, (processItem api i offer).failure = some f) := by
  unfold processItem
  cases api.first i offer with
  | ok d => simp
  | err e1 =>
      cases api.retry i offer with
      | ok d => simp
      | err e2 => simp

theorem processItem_result_index (api : CreateApi α β) (i : Nat) (offer : α) :
    (processItem api i offer).result.index = i := by
  unfold processItem
  cases api.first i offer with
  | ok d => rfl
  | err e1 => cases api.retry i offer with
    | ok d => rfl
    | err e2 => rfl

theorem processItem_failure_index (api : CreateApi α β) (i : Nat) (offer : α)
    (f : FailureEntry) (hf : (processItem api i offer).failure = some f) :
    f.index = i := by
  unfold processItem at hf
  cases hfst : api.first i offer with
  | ok d => simp [hfst] at hf
  | err e1 =>
      cases hr : api.retry i offer with
      | ok d => simp [hfst, hr] at hf
      | err e2 =>
          simp [hfst, hr] at hf
          rw [← hf]

/-- Success and failure counts of a batch add up to the batch size. -/
theorem processBatch_counts (api : CreateApi α β) (offers : List α) (i : Nat) :
    ((processBatch api offers i).filter (·.result.success)).length +
      ((processBatch api offers i).filterMap (·.failure)).length = offers.length := by
  induction offers generalizing i with
  | nil => rfl
  | cons o rest ih =>
      have hih := ih (i + 1)
      rcases processItem_dichotomy api i o with ⟨hs, hf⟩ | ⟨hs, f, hf⟩ <;>
        simp [processBatch, List.filter_cons, List.filterMap_cons, hs, hf] <;>
        omega

/-- With enough fuel (`offers.length ≤ fuel * maxConcurrent`), the batching
loop completes and produces exactly the item-by-item traces, in order. -/
theorem bulkLoop_complete (api : CreateApi α β) (maxConcurrent : Nat) :
    ∀ (fuel : Nat) (offers : List α) (i : Nat), offers.length ≤ fuel * maxConcurrent →
      bulkLoop api maxConcurrent fuel offers i = some (processBatch api offers i) := by
  intro fuel
  induction fuel with
  | zero =>
      intro offers i h
      simp only [Nat.zero_mul, Nat.le_zero, List.length_eq_zero] at h
      subst h
      rfl
  | succ fuel ih =>
      intro offers i h
      match offers with
      | [] => rfl
      | o :: rest =>
          have hdrop : ((o :: rest).drop maxConcurrent).length ≤ fuel * maxConcurrent := by
            have h' := h
            simp only [List.length_cons, Nat.succ_mul] at h'
            simp only [List.length_drop, List.length_cons]
            omega
          rw [bulkLoop, ih _ _ hdrop]
          by_cases hc : maxConcurrent ≤ (o :: rest).length
          · have htake : ((o :: rest).take maxConcurrent).length = maxConcurrent :=
              List.length_take_of_le hc
            conv_rhs => rw [← List.take_append_drop maxConcurrent (o :: rest)]
            rw [processBatch_append, htake]
          · have hdropnil : (o :: rest).drop maxConcurrent = [] := by
              apply List.drop_eq_nil_of_le
              omega
            have htakeall : (o :: rest).take maxConcurrent = o :: rest := by
              apply List.take_of_length_le
              omega
            simp [hdropnil, htakeall, processBatch]

/-- With insufficient fuel (`fuel * maxConcurrent < offers.length`) the loop
does not finish; in particular with `maxConcurrent = 0` it never does. -/
theorem bulkLoop_incomplete (api : CreateApi α β) (maxConcurrent : Nat) :
    ∀ (fuel : Nat) (offers : List α) (i : Nat), fuel * maxConcurrent < offers.length →
      bulkLoop api maxConcurrent fuel offers i = none := by
  intro fuel
  induction fuel with
  | zero =>
      intro offers i h
      simp only [Nat.zero_mul] at h
      match offers with
      | [] => simp at h
      | o :: rest => rfl
  | succ fuel ih =>
      intro offers i h
      match offers with
      | [] => simp at h
      | o :: rest =>
          have hdrop : fuel * maxConcurrent < ((o :: rest).drop maxConcurrent).length := by
            simp only [List.length_drop]
            simp only [List.length_cons, Nat.succ_mul] at h ⊢
            omega
          rw [bulkLoop, ih _ _ hdrop]

theorem batchesNeeded_mul_ge (K m : Nat) (hm : 1 ≤ m) : K ≤ batchesNeeded K m * m := by
  unfold batchesNeeded
  rw [Nat.mul_comm]
  have hdm := Nat.div_add_mod (K + m - 1) m
  have hlt : (K + m - 1) % m < m := Nat.mod_lt _ (by omega)
  omega

theorem lt_batchesNeeded_mul_lt (K m fuel : Nat) (hm : 1 ≤ m)
    (h : fuel < batchesNeeded K m) : fuel * m < K := by
  unfold batchesNeeded at h
  rw [Nat.mul_comm]
  have hdm := Nat.div_add_mod (K + m - 1) m
  have hlt : (K + m - 1) % m < m := Nat.mod_lt _ (by omega)
  have hmul : m * (fuel + 1) ≤ m * ((K + m - 1) / m) :=
    Nat.mul_le_mul_left m h
  have hexp : m * (fuel + 1) = m * fuel + m := by ring
  omega

theorem processItem_first_ok (api : CreateApi α β) (i : Nat) (offer : α) (d : β)
    (h : api.first i offer = .ok d) :
    processItem api i offer =
      { result := { index := i, success := true, data := some d, error := none }
        failure := none, createCalls := 1 } := by
  unfold processItem
  rw [h]

theorem processItem_retry_ok (api : CreateApi α β) (i : Nat) (offer : α) (e1 : String) (d : β)
    (h1 : api.first i offer = .err e1) (h2 : api.retry i offer = .ok d) :
    processItem api i offer =
      { result := { index := i, success := true, data := some d, error := none }
        failure := none, createCalls := 2 } := by
  unfold processItem
  rw [h1, h2]

theorem processItem_both_err (api : CreateApi α β) (i : Nat) (offer : α) (e1 e2 : String)
    (h1 : api.first i offer = .err e1) (h2 : api.retry i offer = .err e2) :
    processItem api i offer =
      { result := { index := i, success := false, data := none, error := some e2 }
        failure := some { index := i, error := "Initial: " ++ e1 ++ ", Retry: " ++ e2 }
        createCalls := 2 } := by
  unfold processItem
  rw [h1, h2]

/-- Every entry of the `failed` list produced from a batch starting at index
`j` carries an index in `[j, j + batch size)`. -/
theorem processBatch_failure_bounds (api : CreateApi α β) :
    ∀ (offers : List α) (j : Nat) (f : FailureEntry),
      f ∈ (processBatch api offers j).filterMap (·.failure) →
      j ≤ f.index ∧ f.index < j + offers.length := by
  intro offers
  induction offers with
  | nil =>
      intro j f hf
      simp [processBatch] at hf
  | cons o rest ih =>
      intro j f hf
      rw [processBatch] at hf
      cases hfail : (processItem api j o).failure with
      | none =>
          rw [List.filterMap_cons_none hfail] at hf
          have := ih (j + 1) f hf
          simp only [List.length_cons]
          omega
      | some f0 =>
          rw [List.filterMap_cons_some hfail] at hf
          rcases List.mem_cons.mp hf with rfl | hmem
          · have hidx := processItem_failure_index api j o f hfail
            simp only [List.length_cons]
            omega
          · have := ih (j + 1) f hmem
            simp only [List.length_cons]
            omega

/-- The `failed` entries recorded for the item at position `i` of a batch
starting at `j`: exactly the (at most one) entry produced by that item's own
task. -/
theorem processBatch_failure_filter (api : CreateApi α β) :
    ∀ (offers : List α) (j i : Nat) (offer : α), offers.get? i = some offer →
      ((processBatch api offers j).filterMap (·.failure)).filter
          (fun f => f.index = j + i) =
        ((processItem api (j + i) offer).failure).toList := by
  intro offers
  induction offers with
  | nil =>
      intro j i offer h
      simp at h
  | cons o rest ih =>
      intro j i offer h
      cases i with
      | zero =>
          rw [List.get?_cons_zero, Option.some.injEq] at h
          rw [← h]
          simp only [Nat.add_zero]
          rw [processBatch]
          cases hfail : (processItem api j o).failure with
          | none =>
              rw [List.filterMap_cons_none hfail]
              show _ = ([] : List FailureEntry)
              refine List.filter_eq_nil_iff.mpr ?_
              intro f hf
              have hb := processBatch_failure_bounds api rest (j + 1) f hf
              simp only [decide_eq_true_eq]
              omega
          | some f0 =>
              rw [List.filterMap_cons_some hfail]
              have hidx := processItem_failure_index api j o f0 hfail
              rw [List.filter_cons_of_pos (by simp [hidx])]
              show f0 :: _ = [f0]
              congr 1
              refine List.filter_eq_nil_iff.mpr ?_
              intro f hf
              have hb := processBatch_failure_bounds api rest (j + 1) f hf
              simp only [decide_eq_true_eq]
              omega
      | succ i =>
          rw [List.get?_cons_succ] at h
          rw [processBatch]
          have harith : j + (i + 1) = (j + 1) + i := by omega
          cases hfail : (processItem api j o).failure with
          | none =>
              rw [List.filterMap_cons_none hfail, harith]
              exact ih (j + 1) i offer h
          | some f0 =>
              rw [List.filterMap_cons_some hfail]
              have hidx := processItem_failure_index api j o f0 hfail
              rw [List.filter_cons_of_neg (by simp [hidx])]
              rw [harith]
              exact ih (j + 1) i offer h

theorem filter_success_map_result (traces : List (ItemTrace β)) :
    (traces.map (·.result)).filter (·.success) =
      (traces.filter (·.result.success)).map (·.result) := by
  induction traces with
  | nil => rfl
  | cons t ts ih =>
      by_cases h : t.result.success <;> simp [h, ih]

/-- On a non-empty offers array with a positive concurrency limit, the bulk
handler completes and its response aggregates the item-by-item traces. -/
theorem bulkHandler_completed (api : CreateApi α β) (offers : List α)
    (maxConcurrent : Nat) (hne : offers ≠ []) (hpos : 1 ≤ maxConcurrent) :
    bulkHandler api offers maxConcurrent =
      .completed
        { total := offers.length
          created := (((processBatch api offers 0).map (·.result)).filter (·.success)).length
          failed := ((processBatch api offers 0).filterMap (·.failure)).length
          createdOffers :=
            (((processBatch api offers 0).map (·.result)).filter (·.success)).map (·.data)
          failures := (processBatch api offers 0).filterMap (·.failure) } := by
  unfold bulkHandler
  have hempty : offers.isEmpty = false := by
    cases offers with
    | nil => exact absurd rfl hne
    | cons o rest => rfl
  rw [hempty]
  rw [bulkLoop_complete api maxConcurrent _ _ _
    (batchesNeeded_mul_ge offers.length maxConcurrent hpos)]
  rfl

/-- C1: for every bulk submission of a non-empty list of K offers with a
positive concurrency limit, the handler completes with `total = K`,
`created` equal to the number of per-item success outcomes, `failed` equal to
the number of per-item failure entries, and `created + failed = K`: every
submitted item is accounted for as exactly one success or one failure. -/
theorem bulk_accounts_every_item (api : CreateApi α β) (offers : List α)
    (maxConcurrent : Nat) (hne : offers ≠ []) (hpos : 1 ≤ maxConcurrent) :
    ∃ r : BulkResults β, bulkHandler api offers maxConcurrent = .completed r ∧
      r.total = offers.length ∧
      r.created = successCount api offers ∧
      r.failed = failureCount api offers ∧
      r.created + r.failed = offers.length := by
  refine ⟨_, bulkHandler_completed api offers maxConcurrent hne hpos, rfl, ?_, rfl, ?_⟩
  · simp only [successCount, filter_success_map_result, List.length_map]
  · simp only [successCount, failureCount, filter_success_map_result, List.length_map]
    exact processBatch_counts api offers 0

/-- C1 witness: three offers, concurrency 2, an endpoint that always succeeds. -/
theorem bulk_accounts_every_item_witness :
    ∃ r : BulkResults Nat,
      bulkHandler ⟨fun _ _ => .ok 0, fun _ _ => .ok 0⟩ ["a", "b", "c"] 2 = .completed r ∧
      r.total = (["a", "b", "c"] : List String).length ∧
      r.created = successCount ⟨fun _ _ => .ok 0, fun _ _ => .ok 0⟩ ["a", "b", "c"] ∧
      r.failed = failureCount ⟨fun _ _ => .ok 0, fun _ _ => .ok 0⟩ ["a", "b", "c"] ∧
      r.created + r.failed = (["a", "b", "c"] : List String).length :=
  bulk_accounts_every_item _ ["a", "b", "c"] 2 (by simp) (by omega)

/-- C2: in a bulk submission, each item calls the create endpoint at most
twice (once if the first attempt succeeds, exactly twice otherwise, never a
third time); an item that fails then succeeds on retry is a success with no
failure entry; an item failing both attempts yields exactly one failure entry
whose text contains both error messages. -/
theorem bulk_single_retry (api : CreateApi α β) (offers : List α)
    (maxConcurrent : Nat) (hne : offers ≠ []) (hpos : 1 ≤ maxConcurrent)
    (i : Nat) (offer : α) (hoffer : offers.get? i = some offer) :
    ∃ r : BulkResults β, bulkHandler api offers maxConcurrent = .completed r ∧
      (processItem api i offer).createCalls ≤ 2 ∧
      (∀ d, api.first i offer = .ok d → (processItem api i offer).createCalls = 1) ∧
      (∀ e1, api.first i offer = .err e1 → (processItem api i offer).createCalls = 2) ∧
      (∀ e1 d, api.first i offer = .err e1 → api.retry i offer = .ok d →
        (processItem api i offer).result.success = true ∧
        r.failures.filter (fun f => f.index = i) = []) ∧
      (∀ e1 e2, api.first i offer = .err e1 → api.retry i offer = .err e2 →
        r.failures.filter (fun f => f.index = i) =
          [{ index := i, error := "Initial: " ++ e1 ++ ", Retry: " ++ e2 }] ∧
        (∃ p q, "Initial: " ++ e1 ++ ", Retry: " ++ e2 = p ++ e1 ++ q) ∧
        (∃ p q, "Initial: " ++ e1 ++ ", Retry: " ++ e2 = p ++ e2 ++ q)) := by
  have hfilter := processBatch_failure_filter api offers 0 i offer hoffer
  rw [Nat.zero_add] at hfilter
  refine ⟨_, bulkHandler_completed api offers maxConcurrent hne hpos,
    ?_, ?_, ?_, ?_, ?_⟩
  · unfold processItem
    cases api.first i offer with
    | ok d => simp
    | err e1 => cases api.retry i offer with
      | ok d => simp
      | err e2 => simp
  · intro d h
    rw [processItem_first_ok api i offer d h]
  · intro e1 h
    unfold processItem
    rw [h]
    cases api.retry i offer with
    | ok d => simp
    | err e2 => simp
  · intro e1 d h1 h2
    rw [processItem_retry_ok api i offer e1 d h1 h2] at hfilter ⊢
    exact ⟨rfl, hfilter⟩
  · intro e1 e2 h1 h2
    rw [processItem_both_err api i offer e1 e2 h1 h2] at hfilter
    refine ⟨hfilter, ⟨"Initial: ", ", Retry: " ++ e2, ?_⟩,
      ⟨"Initial: " ++ e1 ++ ", Retry: ", "", ?_⟩⟩
    · simp [String.append_assoc]
    · simp

/-- C2 witness: two offers, one failing both attempts, one succeeding on
retry. -/
theorem bulk_single_retry_witness :
    ∃ r : BulkResults Nat,
      bulkHandler
          ⟨fun _ _ => .err "boom1", fun j _ => if j = 0 then .err "boom2" else .ok 7⟩
          ["x", "y"] 5 = .completed r ∧
      (processItem
          ⟨fun _ _ => .err "boom1", fun j _ => if j = 0 then .err "boom2" else .ok 7⟩
          0 "x").createCalls ≤ 2 ∧
      (∀ d, (AttemptResult.err "boom1" : AttemptResult Nat) = .ok d →
        (processItem
          ⟨fun _ _ => .err "boom1", fun j _ => if j = 0 then .err "boom2" else .ok 7⟩
          0 "x").createCalls = 1) ∧
      (∀ e1, (AttemptResult.err "boom1" : AttemptResult Nat) = .err e1 →
        (processItem
          ⟨fun _ _ => .err "boom1", fun j _ => if j = 0 then .err "boom2" else .ok 7⟩
          0 "x").createCalls = 2) ∧
      (∀ e1 d, (AttemptResult.err "boom1" : AttemptResult Nat) = .err e1 →
        (if (0 : Nat) = 0 then AttemptResult.err "boom2" else AttemptResult.ok 7) = .ok d →
        (processItem
          ⟨fun _ _ => .err "boom1", fun j _ => if j = 0 then .err "boom2" else .ok 7⟩
          0 "x").result.success = true ∧
        r.failures.filter (fun f => f.index = 0) = []) ∧
      (∀ e1 e2, (AttemptResult.err "boom1" : AttemptResult Nat) = .err e1 →
        (if (0 : Nat) = 0 then AttemptResult.err "boom2" else AttemptResult.ok 7) = .err e2 →
        r.failures.filter (fun f => f.index = 0) =
          [{ index := 0, error := "Initial: " ++ e1 ++ ", Retry: " ++ e2 }] ∧
        (∃ p q, "Initial: " ++ e1 ++ ", Retry: " ++ e2 = p ++ e1 ++ q) ∧
        (∃ p q, "Initial: " ++ e1 ++ ", Retry: " ++ e2 = p ++ e2 ++ q)) :=
  bulk_single_retry _ ["x", "y"] 5 (by simp) (by omega) 0 "x" rfl

/-- C10: on a non-empty offers array of length K, the batching loop terminates
after exactly `⌈K / maxConcurrent⌉` iterations when the caller-supplied
`maxConcurrent` is positive (fewer iterations do not finish), and it does not
terminate at all when `maxConcurrent = 0` — positivity of the unvalidated
request-body limit is the precondition for the loop to be total. -/
theorem bulk_loop_batches (api : CreateApi α β) (offers : List α)
    (maxConcurrent : Nat) (hne : offers ≠ []) :
    (1 ≤ maxConcurrent →
      (bulkLoop api maxConcurrent (batchesNeeded offers.length maxConcurrent)
          offers 0).isSome = true ∧
      ∀ fuel, fuel < batchesNeeded offers.length maxConcurrent →
        bulkLoop api maxConcurrent fuel offers 0 = none) ∧
    (maxConcurrent = 0 → ∀ fuel, bulkLoop api 0 fuel offers 0 = none) := by
  constructor
  · intro hpos
    constructor
    · rw [bulkLoop_complete api maxConcurrent _ _ _
        (batchesNeeded_mul_ge offers.length maxConcurrent hpos)]
      rfl
    · intro fuel hfuel
      exact bulkLoop_incomplete api maxConcurrent fuel offers 0
        (lt_batchesNeeded_mul_lt offers.length maxConcurrent fuel hpos hfuel)
  · rintro rfl fuel
    apply bulkLoop_incomplete
    rw [Nat.mul_zero]
    cases offers with
    | nil => exact absurd rfl hne
    | cons o rest => simp

/-- C10 witness: five offers, concurrency 2 — three batches. -/
theorem bulk_loop_batches_witness :
    ((1 ≤ 2 →
      (bulkLoop (⟨fun _ _ => .ok 0, fun _ _ => .ok 0⟩ : CreateApi String Nat) 2
          (batchesNeeded (["a", "b", "c", "d", "e"] : List String).length 2)
          ["a", "b", "c", "d", "e"] 0).isSome = true ∧
      ∀ fuel, fuel < batchesNeeded (["a", "b", "c", "d", "e"] : List String).length 2 →
        bulkLoop (⟨fun _ _ => .ok 0, fun _ _ => .ok 0⟩ : CreateApi String Nat) 2
          fuel ["a", "b", "c", "d", "e"] 0 = none) ∧
    ((2 : Nat) = 0 → ∀ fuel,
      bulkLoop (⟨fun _ _ => .ok 0, fun _ _ => .ok 0⟩ : CreateApi String Nat) 0
        fuel ["a", "b", "c", "d", "e"] 0 = none)) :=
  bulk_loop_batches _ ["a", "b", "c", "d", "e"] 2 (by simp)

/-! ## Request values and the count validation of `POST /api/generate/freight` -/

/-- A JSON-ish value as the route handlers see it (`req.body.x`,
`req.query.x`).  Numbers are restricted to integers: every count the claims
quantify over is an integer, and `Number.parseInt` of an integral number is
that integer. -/
inductive JsValue where
  | undef
  | nullV
  | boolV (b : Bool)
  | numV (n : Int)
  | strV (s : String)
deriving DecidableEq

/-- JavaScript truthiness (`undefined`, `null`, `false`, `0` and `""` are
falsy). -/
def jsTruthy : JsValue → Bool
  | .undef => false
  | .nullV => false
  | .boolV b => b
  | .numV n => decide (n ≠ 0)
  | .strV s => decide (s ≠ "")

/-- `a || b`. -/
def jsOr (a b : JsValue) : JsValue :=
  if jsTruthy a then a else b

/-- Numeric value of the longest leading run of decimal digits; `none` when
that run is empty. -/
def leadDigits (cs : List Char) : Option Nat :=
  let ds := cs.takeWhile (·.isDigit)
  if ds.isEmpty then none
  else some (ds.foldl (fun acc c => 10 * acc + (c.toNat - 48)) 0)

/-- `Number.parseInt(s, 10)`: skip leading whitespace, optional sign, then the
longest run of decimal digits; `NaN` (`none` here) when that run is empty.
Anything after the digits is ignored. -/
def jsParseIntStr (s : String) : Option Int :=
  match s.toList.dropWhile (·.isWhitespace) with
  | '-' :: rest => (leadDigits rest).map (fun n => -(n : Int))
  | '+' :: rest => (leadDigits rest).map (fun n => (n : Int))
  | cs => (leadDigits cs).map (fun n => (n : Int))

/-- `Number.parseInt(v, 10)` after JavaScript's string coercion: an integral
number stringifies to its decimal form and parses back to itself; `true`,
`false`, `null` and `undefined` stringify to words and parse to `NaN`. -/
def jsParseInt : JsValue → Option Int
  | .numV n => some n
  | .strV s => jsParseIntStr s
  | _ => none

/-- Outcome of the count validation of `POST /api/generate/freight`: 400
before any work, or proceed to generate (and bulk-post) `numCount` records. -/
inductive GenerateOutcome where
  | badRequest
  | proceed (numCount : Int)
deriving DecidableEq

/-- `src/api/routes/generate.ts`:
`const count = req.body?.count || req.query?.count || 1000;`
`const numCount = Number.parseInt(count, 10);`
`if (Number.isNaN(numCount) || numCount <= 0 || numCount > 10000) return res.status(400)...`.
Only when the guard passes does the handler call the generator and the
bulk-posting loop. -/
def generateFreightValidate (bodyCount queryCount : JsValue) : GenerateOutcome :=
  let count := jsOr bodyCount (jsOr queryCount (.numV 1000))
  match jsParseInt count with
  | none => .badRequest
  | some numCount =>
      if numCount ≤ 0 ∨ 10000 < numCount then .badRequest
      else .proceed numCount

/-- C7 counterexample: a request whose body carries `count: 0` — a count that
lies outside `[1, 10000]` — is not answered with 400: the falsy `0` falls
through `||` to the default and the handler proceeds with `numCount = 1000`. -/
theorem generate_count_zero_not_rejected :
    generateFreightValidate (.numV 0) .undef = .proceed 1000 := rfl

/-- C7 (amended): the effective count is the first truthy of body count, query
count and the default `1000`; the handler responds 400 — before any record is
generated or any create call issued — exactly when that effective value does
not `parseInt` to an integer in `[1, 10000]`; a falsy count (the number 0, the
empty string, `null`, `false` or an absent parameter) is replaced by the
default 1000 and accepted. -/
theorem generate_count_validation (bodyCount queryCount : JsValue) :
    (∀ n, jsParseInt (jsOr bodyCount (jsOr queryCount (.numV 1000))) = some n →
      (1 ≤ n ∧ n ≤ 10000 → generateFreightValidate bodyCount queryCount = .proceed n) ∧
      (n ≤ 0 ∨ 10000 < n → generateFreightValidate bodyCount queryCount = .badRequest)) ∧
    (jsParseInt (jsOr bodyCount (jsOr queryCount (.numV 1000))) = none →
      generateFreightValidate bodyCount queryCount = .badRequest) ∧
    (jsTruthy bodyCount = false → jsTruthy queryCount = false →
      generateFreightValidate bodyCount queryCount = .proceed 1000) := by
  refine ⟨?_, ?_, ?_⟩
  · intro n hn
    constructor
    · intro hrange
      simp only [generateFreightValidate, hn]
      rw [if_neg (by omega)]
    · intro hout
      simp only [generateFreightValidate, hn]
      rw [if_pos (by omega)]
  · intro hnan
    simp only [generateFreightValidate, hnan]
  · intro hb hq
    simp only [generateFreightValidate, jsOr, hb, hq, if_neg]
    rfl

/-- C7 witness: an out-of-range count, a malformed count, and an in-range
count, each at a concrete request. -/
theorem generate_count_validation_witness :
    generateFreightValidate (.strV "20000") .undef = .badRequest ∧
    generateFreightValidate (.strV "abc") .undef = .badRequest ∧
    generateFreightValidate (.numV 250) .undef = .proceed 250 := by
  refine ⟨?_, ?_, ?_⟩
  · exact ((generate_count_validation (.strV "20000") .undef).1 20000 (by decide)).2 (by decide)
  · exact (generate_count_validation (.strV "abc") .undef).2.1 (by decide)
  · exact ((generate_count_validation (.numV 250) .undef).1 250 (by decide)).1 (by decide)

/-! ## Delete-all handlers -/

/-- One element of the remote list's `payload`, restricted to the fields the
delete-all loop reads.  `none` models an absent field; `some ""` an empty
string (both falsy in `offer.id || offer.publicOfferId`). -/
structure RemoteOffer where
  id : Option String
  publicOfferId : Option String
deriving DecidableEq

/-- A falsy string-or-absent collapses to `none`. -/
def jsStrOpt : Option String → Option String
  | some s => if s = "" then none else some s
  | none => none

/-- `const offerId = (offer.id as string) || (offer.publicOfferId as string);`
with `none` when the result is falsy (the offer is skipped with a log line). -/
def offerIdOf (o : RemoteOffer) : Option String :=
  match jsStrOpt o.id with
  | some s => some s
  | none => jsStrOpt o.publicOfferId

/-- Outbound calls of the delete-all handler. -/
inductive ExtCall where
  | listCall
  | deleteCall (offerId : String)
deriving DecidableEq

/-- One element of the delete loop's `results` array. -/
structure DeleteResult where
  offerId : String
  success : Bool
  error : Option String
deriving DecidableEq

/-- One element of the delete loop's `failed` array. -/
structure DeleteFailure where
  offerId : String
  error : String
deriving DecidableEq

/-- The sequential deletion loop `for (const offer of offers)`: skip offers
with no usable identifier, otherwise delete (with a 0.5-second pacing delay
that affects no value), recording the outcome.  Returns the `results` list,
the `failed` list, the `deleted` counter, and the delete calls issued. -/
def deleteLoop (deleteApi : String → AttemptResult Unit) :
    List RemoteOffer → List DeleteResult × List DeleteFailure × Nat × List ExtCall
  | [] => ([], [], 0, [])
  | offer :: rest =>
      match offerIdOf offer with
      | none => deleteLoop deleteApi rest
      | some oid =>
          match deleteApi oid with
          | .ok _ =>
              let t := deleteLoop deleteApi rest
              ({ offerId := oid, success := true, error := none } :: t.1, t.2.1,
                t.2.2.1 + 1, .deleteCall oid :: t.2.2.2)
          | .err e =>
              let t := deleteLoop deleteApi rest
              ({ offerId := oid, success := false, error := some e } :: t.1,
                { offerId := oid, error := e } :: t.2.1,
                t.2.2.1, .deleteCall oid :: t.2.2.2)

/-- The `results` object of the delete-all response. -/
structure DeleteAllResults where
  total : Nat
  deleted : Nat
  failed : Nat
  deletedOffers : List String
  failures : List DeleteFailure
deriving DecidableEq

/-- Outcome of a delete-all request: the confirmation 400, a 500 when the
initial list call throws, or the 200 aggregate. -/
inductive DeleteAllOutcome where
  | badRequest
  | listError (msg : String)
  | completed (r : DeleteAllResults)
deriving DecidableEq

/-- The delete-all handler (`POST /freight-offers/delete-all` and the generic
`createDeleteAllHandler`): requires `confirm === true` in the request body
before anything else; fetches the full list; returns
`{total: 0, deleted: 0, failed: 0}` when `rawData?.payload || []` is empty;
otherwise runs the deletion loop and aggregates.  The second component is the
sequence of outbound calls made. -/
def deleteAllHandler (confirm : JsValue)
    (listApi : AttemptResult (Option (List RemoteOffer)))
    (deleteApi : String → AttemptResult Unit) :
    DeleteAllOutcome × List ExtCall :=
  if confirm ≠ .boolV true then (.badRequest, [])
  else
    match listApi with
    | .err e => (.listError e, [.listCall])
    | .ok payload =>
        let offers := payload.getD []
        if offers.isEmpty then
          (.completed { total := 0, deleted := 0, failed := 0, deletedOffers := [], failures := [] },
            [.listCall])
        else
          let t := deleteLoop deleteApi offers
          (.completed
            { total := offers.length
              deleted := t.2.2.1
              failed := t.2.1.length
              deletedOffers := (t.1.filter (·.success)).map (·.offerId)
              failures := t.2.1 },
            .listCall :: t.2.2.2)

/-- C8: a delete-all request whose body's `confirm` is not exactly the boolean
`true` returns 400 and performs no destructive action: it issues no list call
and no delete call. -/
theorem delete_all_requires_confirmation (confirm : JsValue)
    (listApi : AttemptResult (Option (List RemoteOffer)))
    (deleteApi : String → AttemptResult Unit)
    (hconfirm : confirm ≠ .boolV true) :
    deleteAllHandler confirm listApi deleteApi = (.badRequest, []) := by
  unfold deleteAllHandler
  rw [if_pos hconfirm]

/-- C8 witness: `confirm: "true"` (a string, not the boolean) with a remote
list that would otherwise have one deletable offer. -/
theorem delete_all_requires_confirmation_witness :
    deleteAllHandler (.strV "true")
        (.ok (some [{ id := some "A", publicOfferId := none }]))
        (fun _ => .ok ()) = (.badRequest, []) :=
  delete_all_requires_confirmation _ _ _ (by decide)

/-- C9: a confirmed delete-all for which the remote list call succeeds with an
empty (or absent) payload answers `{total: 0, deleted: 0, failed: 0}` and
issues the list call but no delete call. -/
theorem delete_all_empty_list (payload : Option (List RemoteOffer))
    (deleteApi : String → AttemptResult Unit)
    (hempty : payload.getD [] = []) :
    deleteAllHandler (.boolV true) (.ok payload) deleteApi =
      (.completed { total := 0, deleted := 0, failed := 0, deletedOffers := [], failures := [] },
        [.listCall]) ∧
    ∀ oid, ExtCall.deleteCall oid ∉
      (deleteAllHandler (.boolV true) (.ok payload) deleteApi).2 := by
  have h1 : deleteAllHandler (.boolV true) (.ok payload) deleteApi =
      (.completed { total := 0, deleted := 0, failed := 0, deletedOffers := [], failures := [] },
        [.listCall]) := by
    unfold deleteAllHandler
    rw [if_neg (by simp)]
    simp only [hempty, List.isEmpty_nil, if_true]
  refine ⟨h1, ?_⟩
  intro oid
  rw [h1]
  simp

/-- C9 witness: confirmed delete-all over an explicitly empty payload. -/
theorem delete_all_empty_list_witness :
    deleteAllHandler (.boolV true) (.ok (some ([] : List RemoteOffer)))
        (fun _ => .ok ()) =
      (.completed { total := 0, deleted := 0, failed := 0, deletedOffers := [], failures := [] },
        [.listCall]) ∧
    ∀ oid, ExtCall.deleteCall oid ∉
      (deleteAllHandler (.boolV true) (.ok (some ([] : List RemoteOffer)))
        (fun _ => .ok ())).2 :=
  delete_all_empty_list _ _ rfl

/-! ## CSV-to-freight-offer generator (`generate-freight-offers` script) -/

/-- A parsed CSV row (`csv-parse` with `columns: true`): one string per
distinct header, empty string for a blank cell.  Field names mirror the CSV
column names (noted in comments).  With `columns: true` duplicate headers
collapse into one key, so in `createLoadingPlaces` the `lastIndexOf` of
`loadingPlaces-loadingType` coincides with the `indexOf` and the
second-occurrence block never runs; the positional offsets `+3 .. +8` then
address exactly the named fields below. -/
structure CSVRow where
  customerId : String                -- customer-id
  contactTitle : String              -- contactPerson-title
  contactFirstName : String          -- contactPerson-firstName
  contactLastName : String           -- contactPerson-lastName
  contactEmail : String              -- contactPerson-email
  contactLanguages : String          -- contactPerson-languages
  contactBusinessPhone : String      -- contactPerson-businessPhone
  contactMobilePhone : String        -- contactPerson-mobilePhone
  contactFax : String                -- contactPerson-fax
  vehicleBody : String               -- vehicleProperties-body
  vehicleType : String               -- vehicleProperties-type
  vehicleBodyProperty : String       -- vehicleProperties-bodyProperty
  vehicleEquipment : String          -- vehicleProperties-equipment
  vehicleLoadSecuring : String       -- vehicleProperties-loadSecuring
  vehicleSwapBody : String           -- vehicleProperties-swapBody
  trackable : String
  acceptQuotes : String
  freightDescription : String
  length_m : String
  weight_t : String
  priceAmount : String               -- price-amount
  priceCurrency : String             -- price-currency
  paymentDueWithinDays : String
  additionalInformation : String
  publicRemark : String
  internalRemark : String
  logisticsDocumentTypes : String
  cfesId : String                    -- closedFreightExchangeSetting-closedFreightExchangeId
  cfesPublicationType : String       -- closedFreightExchangeSetting-publicationType
  cfesRemark : String                -- closedFreightExchangeSetting-remark
  cfesRetention : String             -- closedFreightExchangeSetting-retentionDurationInMinutes
  cfesPublicationDateTime : String   -- closedFreightExchangeSetting-publicationDateTime
  loadingType : String               -- loadingPlaces-loadingType
  earliestLoadingDateRaw : String    -- loadingPlaces-earliestLoadingDate (position only, unread)
  latestLoadingDateRaw : String      -- loadingPlaces-latestLoadingDate (position only, unread)
  startTime : String                 -- loadingPlaces-startTime (offset +3)
  endTime : String                   -- loadingPlaces-endTime (offset +4)
  addrObjectType : String            -- loadingPlaces-address-objectType (offset +5)
  addrCountry : String               -- loadingPlaces-address-country (offset +6)
  addrCity : String                  -- loadingPlaces-address-city (offset +7)
  addrPostalCode : String            -- loadingPlaces-address-postalCode (offset +8)
deriving DecidableEq, Inhabited

/-- `s.trim()` at character level (kept kernel-computable). -/
def trimStr (s : String) : String :=
  ⟨((s.toList.dropWhile (·.isWhitespace)).reverse.dropWhile (·.isWhitespace)).reverse⟩

/-- `value.split(',')` at character level. -/
def splitCommaAux : List Char → List Char → List String
  | [], acc => [⟨acc.reverse⟩]
  | c :: cs, acc =>
      if c = ',' then ⟨acc.reverse⟩ :: splitCommaAux cs []
      else splitCommaAux cs (c :: acc)

/-- `value.split(',')`. -/
def splitComma (s : String) : List String :=
  splitCommaAux s.toList []

/-- `parseStringArray`: `if (!value) return []`, else split on commas, trim,
drop empties. -/
def parseStringArray (value : String) : List String :=
  if value = "" then []
  else ((splitComma value).map trimStr).filter (fun s => decide (s ≠ ""))

/-- `s.toLowerCase()` (ASCII, which is all the code compares). -/
def toLowerStr (s : String) : String :=
  ⟨s.toList.map Char.toLower⟩

/-- `s.toUpperCase()` (ASCII). -/
def toUpperStr (s : String) : String :=
  ⟨s.toList.map Char.toUpper⟩

/-- `parseBoolean`: case-insensitive comparison with the literal `"true"`. -/
def parseBoolean (value : String) : Bool :=
  toLowerStr value = "true"

/-- Value of a digit run (most significant first). -/
def digitsVal (ds : List Char) : Nat :=
  ds.foldl (fun acc c => 10 * acc + (c.toNat - 48)) 0

/-- Mantissa of `Number.parseFloat`: integer digits, optional decimal point
and fraction digits.  Returns the value and the rest of the input; `none`
when there is no digit at all (JS `NaN`). -/
def parseMantissa (cs : List Char) : Option (ℚ × List Char) :=
  let intDigits := cs.takeWhile (·.isDigit)
  let rest1 := cs.dropWhile (·.isDigit)
  match rest1 with
  | '.' :: rest2 =>
      let fracDigits := rest2.takeWhile (·.isDigit)
      let rest3 := rest2.dropWhile (·.isDigit)
      if intDigits.isEmpty && fracDigits.isEmpty then none
      else some ((digitsVal intDigits : ℚ) +
        (digitsVal fracDigits : ℚ) / (10 : ℚ) ^ fracDigits.length, rest3)
  | _ =>
      if intDigits.isEmpty then none
      else some ((digitsVal intDigits : ℚ), rest1)

/-- Exponent part of `Number.parseFloat` after `e`/`E`: optional sign and
digits; as in JS, a malformed exponent is ignored. -/
def applyExpAux (q : ℚ) : List Char → ℚ
  | '-' :: rest =>
      let ds := rest.takeWhile (·.isDigit)
      if ds.isEmpty then q else q / (10 : ℚ) ^ digitsVal ds
  | '+' :: rest =>
      let ds := rest.takeWhile (·.isDigit)
      if ds.isEmpty then q else q * (10 : ℚ) ^ digitsVal ds
  | cs =>
      let ds := cs.takeWhile (·.isDigit)
      if ds.isEmpty then q else q * (10 : ℚ) ^ digitsVal ds

/-- Apply a trailing `e`/`E` exponent when present. -/
def applyExponent (q : ℚ) : List Char → ℚ
  | 'e' :: rest => applyExpAux q rest
  | 'E' :: rest => applyExpAux q rest
  | _ => q

/-- `Number.parseFloat(s)`: leading whitespace, optional sign, mantissa,
optional exponent; trailing garbage ignored; `NaN` is `none`. -/
def jsParseFloat (s : String) : Option ℚ :=
  match s.toList.dropWhile (·.isWhitespace) with
  | '-' :: rest => (parseMantissa rest).map (fun p => -(applyExponent p.1 p.2))
  | '+' :: rest => (parseMantissa rest).map (fun p => applyExponent p.1 p.2)
  | cs => (parseMantissa cs).map (fun p => applyExponent p.1 p.2)

/-- `parseNumber`: `Number.parseFloat` with `NaN` coerced to `0`. -/
def parseNumber (value : String) : ℚ :=
  (jsParseFloat value).getD 0

/-- `s || dflt` for strings (empty string is falsy). -/
def jsOrStr (s dflt : String) : String :=
  if s = "" then dflt else s

/-- `q || dflt` for numbers (0 is falsy; `parseNumber` maps NaN to 0 first). -/
def jsOrNum (q dflt : ℚ) : ℚ :=
  if q = 0 then dflt else q

/-- The contact-person object of an offer. -/
structure ContactPerson where
  title : String
  firstName : String
  lastName : String
  email : String
  languages : List String
  businessPhone : String
  mobilePhone : Option String
  fax : Option String
deriving DecidableEq, Inhabited

/-- The `titleMapping` lookup table of `createContactPerson`. -/
def titleMapping : String → Option String
  | "Dr" => some "MR"
  | "DR" => some "MR"
  | "Ms" => some "MRS"
  | "MS" => some "MRS"
  | "Miss" => some "MRS"
  | "Herr" => some "MR"
  | "Prof" => some "MR"
  | "Professor" => some "MR"
  | _ => none

/-- `createContactPerson`.  (`parseStringArray(...) || ['de']` never falls
back: a JavaScript array — even empty — is truthy, so the default is dead.) -/
def createContactPerson (row : CSVRow) : ContactPerson :=
  let rawTitle := jsOrStr row.contactTitle "MR"
  { title := (titleMapping rawTitle).getD (toUpperStr rawTitle)
    firstName := jsOrStr row.contactFirstName "Fernández"
    lastName := jsOrStr row.contactLastName "Hernández"
    email := jsOrStr row.contactEmail "schnittstellen@timocom.com"
    languages := parseStringArray row.contactLanguages
    businessPhone := jsOrStr row.contactBusinessPhone "+49 211 88 26 88 26"
    mobilePhone := if row.contactMobilePhone ≠ "" then some row.contactMobilePhone else none
    fax := if row.contactFax ≠ "" then some row.contactFax else none }

/-- Vehicle properties of a freight offer.  The `|| undefined` on the optional
arrays is dead (arrays are truthy), so every field holds the parsed list. -/
structure VehicleProperties where
  body : List String
  bodyProperty : List String
  equipment : List String
  loadSecuring : List String
  swapBody : List String
  type : List String
deriving DecidableEq, Inhabited

/-- The `bodyMapping` lookup table (every key maps to `MOVING_FLOOR`, which is
also the fallback). -/
def bodyMapping : String → Option String
  | "box van" => some "MOVING_FLOOR"
  | "flatbed trailer" => some "MOVING_FLOOR"
  | "refrigerated truck" => some "MOVING_FLOOR"
  | "tarpaulin truck" => some "MOVING_FLOOR"
  | "container chassis" => some "MOVING_FLOOR"
  | "curtain sider" => some "MOVING_FLOOR"
  | "tank trailer" => some "MOVING_FLOOR"
  | "low loader" => some "MOVING_FLOOR"
  | "bulk carrier" => some "MOVING_FLOOR"
  | "container truck" => some "MOVING_FLOOR"
  | _ => none

/-- The `typeMapping` lookup table (every key maps to `VEHICLE_UP_TO_12_T`,
which is also the fallback). -/
def typeMapping : String → Option String
  | "refrigerated truck" => some "VEHICLE_UP_TO_12_T"
  | "insulated van" => some "VEHICLE_UP_TO_12_T"
  | "tarpaulin truck" => some "VEHICLE_UP_TO_12_T"
  | "flatbed truck" => some "VEHICLE_UP_TO_12_T"
  | "platform trailer" => some "VEHICLE_UP_TO_12_T"
  | "tipper truck" => some "VEHICLE_UP_TO_12_T"
  | "container carrier" => some "VEHICLE_UP_TO_12_T"
  | "tank truck" => some "VEHICLE_UP_TO_12_T"
  | "grain truck" => some "VEHICLE_UP_TO_12_T"
  | _ => none

/-- `createVehicleProperties`. -/
def createVehicleProperties (row : CSVRow) : VehicleProperties :=
  let body := parseStringArray row.vehicleBody
  let vtype := parseStringArray row.vehicleType
  { body :=
      if 0 < body.length then body.map (fun b => (bodyMapping b).getD "MOVING_FLOOR")
      else ["MOVING_FLOOR"]
    bodyProperty := parseStringArray row.vehicleBodyProperty
    equipment := parseStringArray row.vehicleEquipment
    loadSecuring := parseStringArray row.vehicleLoadSecuring
    swapBody := parseStringArray row.vehicleSwapBody
    type :=
      if 0 < vtype.length then vtype.map (fun t => (typeMapping t).getD "VEHICLE_UP_TO_12_T")
      else ["VEHICLE_UP_TO_12_T"] }

/-- An address of a loading place. -/
structure Address where
  objectType : String
  country : String
  city : String
  postalCode : Option String
deriving DecidableEq, Inhabited

/-- `createAddress` (the postal code is included only when truthy; the
fallback call sites pass no postal code, modelled as `""`). -/
def createAddress (objectType country city postalCode : String) : Address :=
  { objectType := jsOrStr objectType "address"
    country := jsOrStr country "DE"
    city := jsOrStr city "Berlin"
    postalCode := if postalCode ≠ "" then some postalCode else none }

/-- A loading place.  Dates are day numbers (the code stores the ISO string
`toISOString().split('T')[0]`, an injective image of the day number). -/
structure LoadingPlace where
  loadingType : String
  address : Address
  earliestLoadingDate : Nat
  latestLoadingDate : Nat
  startTime : Option String
  endTime : Option String
deriving DecidableEq, Inhabited

/-- `createLoadingPlaces`: loading dates are synthesized from "today"
(`new Date()` at conversion time) — tomorrow for LOADING, the day after for
anything else — never parsed from the CSV.  Only the first-occurrence block
can fire (collapsed duplicate headers); the fallbacks then guarantee both a
LOADING and an UNLOADING place. -/
def createLoadingPlaces (row : CSVRow) (today : Nat) : List LoadingPlace :=
  let tomorrow := today + 1
  let dayAfter := today + 2
  let places : List LoadingPlace :=
    if row.loadingType ≠ "" then
      [{ loadingType := row.loadingType
         address := createAddress row.addrObjectType row.addrCountry row.addrCity
           row.addrPostalCode
         earliestLoadingDate := if row.loadingType = "LOADING" then tomorrow else dayAfter
         latestLoadingDate := if row.loadingType = "LOADING" then tomorrow else dayAfter
         startTime := if row.startTime ≠ "" then some row.startTime else none
         endTime := if row.endTime ≠ "" then some row.endTime else none }]
    else []
  if places.length = 0 then
    [{ loadingType := "LOADING", address := createAddress "address" "DE" "Berlin" ""
       earliestLoadingDate := tomorrow, latestLoadingDate := tomorrow
       startTime := none, endTime := none },
     { loadingType := "UNLOADING", address := createAddress "address" "PL" "Warsaw" ""
       earliestLoadingDate := dayAfter, latestLoadingDate := dayAfter
       startTime := none, endTime := none }]
  else if places.length = 1 then
    if places.any (fun p => p.loadingType = "LOADING") then
      places ++
        [{ loadingType := "UNLOADING", address := createAddress "address" "PL" "Warsaw" ""
           earliestLoadingDate := dayAfter, latestLoadingDate := dayAfter
           startTime := none, endTime := none }]
    else
      { loadingType := "LOADING", address := createAddress "address" "DE" "Berlin" ""
        earliestLoadingDate := tomorrow, latestLoadingDate := tomorrow
        startTime := none, endTime := none } :: places
  else places

/-- A price. -/
structure Money where
  amount : ℚ
  currency : String
deriving DecidableEq, Inhabited

/-- `createMoney` (`undefined` unless the parsed amount is positive). -/
def createMoney (amount currency : String) : Option Money :=
  let amountNum := parseNumber amount
  if amountNum ≤ 0 then none
  else some { amount := amountNum, currency := jsOrStr currency "EUR" }

/-- The closed-freight-exchange publication settings. -/
structure ClosedFreightExchangeSetting where
  closedFreightExchangeId : ℚ
  publicationType : String
  remark : Option String
  retentionDurationInMinutes : Option ℚ
  publicationDateTime : Option String
deriving DecidableEq, Inhabited

/-- A freight offer (`PublishFreightOfferRequest`); absent optional fields are
`none`. -/
structure FreightOffer where
  customerId : Nat
  objectType : String
  contactPerson : ContactPerson
  vehicleProperties : VehicleProperties
  trackable : Bool
  acceptQuotes : Bool
  freightDescription : String
  length_m : ℚ
  weight_t : ℚ
  loadingPlaces : List LoadingPlace
  price : Option Money
  paymentDueWithinDays : Option ℚ
  additionalInformation : Option (List String)
  publicRemark : Option String
  internalRemark : Option String
  logisticsDocumentTypes : Option (List String)
  closedFreightExchangeSetting : Option ClosedFreightExchangeSetting
deriving DecidableEq, Inhabited

/-- `convertRowToFreightOffer(row, index)`; `today` is the calendar day of the
`new Date()` reading inside `createLoadingPlaces`. -/
def convertRowToFreightOffer (row : CSVRow) (index : Nat) (today : Nat) : FreightOffer :=
  { customerId := 902245
    objectType := "freightOffer"
    contactPerson := createContactPerson row
    vehicleProperties := createVehicleProperties row
    trackable := parseBoolean row.trackable
    acceptQuotes := parseBoolean row.acceptQuotes
    freightDescription := jsOrStr row.freightDescription
      ("SDK generated freight " ++ toString (index + 1))
    length_m := jsOrNum (parseNumber row.length_m) (1231 / 100)
    weight_t := jsOrNum (parseNumber row.weight_t) (555 / 100)
    loadingPlaces := createLoadingPlaces row today
    price := createMoney row.priceAmount row.priceCurrency
    paymentDueWithinDays :=
      let p := parseNumber row.paymentDueWithinDays
      if 0 < p then some p else none
    additionalInformation :=
      let a := parseStringArray row.additionalInformation
      if 0 < a.length then some a else none
    publicRemark := if row.publicRemark ≠ "" then some row.publicRemark else none
    internalRemark := if row.internalRemark ≠ "" then some row.internalRemark else none
    logisticsDocumentTypes :=
      let l := parseStringArray row.logisticsDocumentTypes
      if 0 < l.length then some l else none
    closedFreightExchangeSetting :=
      if row.cfesId ≠ "" then
        some { closedFreightExchangeId := parseNumber row.cfesId
               publicationType := jsOrStr row.cfesPublicationType "INTERNAL_ONLY"
               remark := if row.cfesRemark ≠ "" then some row.cfesRemark else none
               retentionDurationInMinutes :=
                 let r := parseNumber row.cfesRetention
                 if 0 < r then some r else none
               publicationDateTime :=
                 if row.cfesPublicationDateTime ≠ "" then some row.cfesPublicationDateTime
                 else none }
      else none }

/-- The seeded pseudo-random generator of `generateVariation`:
`const random = (seed) => { const x = Math.sin(seed) * 10000; return x - Math.floor(x); };`
with `Math.sin` abstracted as `sinVal`.  For every `sinVal` the result lies in
`[0, 1)`, which is all the code relies on. -/
def jsRandom (sinVal : Nat → ℚ) (seed : Nat) : ℚ :=
  Int.fract (sinVal seed * 10000)

/-- `generateVariation(baseOffer, index)` for freight offers: a deep copy with
weight/length scaled by `0.8 + rand * 0.4` under a `Math.max(0.01, ...)`
floor, boolean flags re-drawn from seed thresholds, the description
re-indexed, the `objectType`/customer id re-asserted, and every loading place
re-dated to tomorrow plus a seeded 0..29-day offset (unloading one day
later). -/
def generateVariation (baseOffer : FreightOffer) (index : Nat) (today : Nat)
    (sinVal : Nat → ℚ) : FreightOffer :=
  let seed := index * 12345
  let rand1 := jsRandom sinVal seed
  let rand2 := jsRandom sinVal (seed + 1)
  let rand3 := jsRandom sinVal (seed + 2)
  let dayOffset := (⌊rand1 * 30⌋).toNat
  let loadingDate := today + 1 + dayOffset
  let unloadingDate := loadingDate + 1
  { baseOffer with
    weight_t := max (1 / 100) (baseOffer.weight_t * (4 / 5 + rand1 * (2 / 5)))
    length_m := max (1 / 100) (baseOffer.length_m * (4 / 5 + rand2 * (2 / 5)))
    trackable := decide (1 / 2 < rand3)
    acceptQuotes := decide (3 / 5 < jsRandom sinVal (seed + 3))
    freightDescription := "SDK generated freight " ++ toString index
    objectType := "freightOffer"
    customerId := if baseOffer.customerId = 0 then 902245 else baseOffer.customerId
    loadingPlaces := baseOffer.loadingPlaces.map (fun place =>
      if place.loadingType = "LOADING" then
        { place with earliestLoadingDate := loadingDate, latestLoadingDate := loadingDate }
      else
        { place with
            earliestLoadingDate := unloadingDate
            latestLoadingDate := unloadingDate }) }

/-- The usable-row filter inside `parseCSV`: keep rows with truthy
`customer-id`, `contactPerson-firstName` and `freightDescription`. -/
def usableFreightRow (row : CSVRow) : Bool :=
  decide (row.customerId ≠ "") && decide (row.contactFirstName ≠ "") &&
    decide (row.freightDescription ≠ "")

/-- Calendar day of a millisecond timestamp. -/
def dayOf (ms : Nat) : Nat :=
  ms / 86400000

/-- One iteration of the generation loop at index `i`: a direct conversion of
`csvRows[i % csvRows.length]` while `i < csvRows.length`, otherwise a
variation of the already generated offer at `i % csvRows.length`; the
`if (!csvRow) continue` / `if (!baseOffer) continue` guards skip the push when
a lookup comes back empty. -/
def genStep (rows : List CSVRow) (clock : Nat → Nat) (sinVal : Nat → ℚ)
    (acc : List FreightOffer) (i : Nat) : List FreightOffer :=
  match rows.get? (i % rows.length) with
  | none => acc
  | some csvRow =>
      if i < rows.length then
        acc ++ [convertRowToFreightOffer csvRow i (dayOf (clock i))]
      else
        match acc.get? (i % rows.length) with
        | none => acc
        | some baseOffer => acc ++ [generateVariation baseOffer i (dayOf (clock i)) sinVal]

/-- The generation loop `for (let i = 0; i < count; i++)` over the filtered
rows; `clock i` is the millisecond `new Date()` reading while item `i` is
built. -/
def genLoop (rows : List CSVRow) (clock : Nat → Nat) (sinVal : Nat → ℚ)
    (count : Nat) : List FreightOffer :=
  (List.range count).foldl (genStep rows clock sinVal) []

/-- Result of `generateFreightOffers`: either the generated list, or
termination of the whole process (`process.exit(1)` in the catch block). -/
inductive GenResult where
  | ok (offers : List FreightOffer)
  | processExit (code : Nat)
deriving DecidableEq

/-- `generateFreightOffers(count)`: filter the parsed CSV records and throw
`"No valid data found in CSV file"` when no usable row remains; the catch
block then runs `console.error(...)` followed by `process.exit(1)`,
terminating the process (an unreadable file or a `csv-parse` failure reaches
the same exit through `records = []`).  Otherwise run the generation loop. -/
def generateFreightOffers (records : List CSVRow) (count : Nat)
    (clock : Nat → Nat) (sinVal : Nat → ℚ) : GenResult :=
  let csvRows := records.filter usableFreightRow
  if csvRows.length = 0 then .processExit 1
  else .ok (genLoop csvRows clock sinVal count)

/-- Closed form of the `i`-th generated offer: a direct conversion for
`i < N`, else a variation of the direct conversion at `i % N`. -/
def expectedOffer (rows : List CSVRow) (clock : Nat → Nat) (sinVal : Nat → ℚ)
    (i : Nat) : FreightOffer :=
  if i < rows.length then
    convertRowToFreightOffer (rows.getD i default) i (dayOf (clock i))
  else
    generateVariation
      (convertRowToFreightOffer (rows.getD (i % rows.length) default) (i % rows.length)
        (dayOf (clock (i % rows.length))))
      i (dayOf (clock i)) sinVal

/-! ### Structural lemmas about the generation loop -/

theorem getD_of_lt {γ : Type} [Inhabited γ] (l : List γ) (k : Nat) (hk : k < l.length) :
    l.get? k = some (l.getD k default) := by
  rw [List.getD_eq_get?, List.get?_eq_get hk]
  rfl

theorem genLoop_succ (rows : List CSVRow) (clock : Nat → Nat) (sinVal : Nat → ℚ) (c : Nat) :
    genLoop rows clock sinVal (c + 1) =
      genStep rows clock sinVal (genLoop rows clock sinVal c) c := by
  unfold genLoop
  rw [List.range_succ, List.foldl_append, List.foldl_cons, List.foldl_nil]

theorem genStep_direct (rows : List CSVRow) (clock : Nat → Nat) (sinVal : Nat → ℚ)
    (acc : List FreightOffer) (i : Nat) (row : CSVRow)
    (hget : rows.get? (i % rows.length) = some row) (hlt : i < rows.length) :
    genStep rows clock sinVal acc i =
      acc ++ [convertRowToFreightOffer row i (dayOf (clock i))] := by
  unfold genStep
  rw [hget]
  show (if i < rows.length then acc ++ [convertRowToFreightOffer row i (dayOf (clock i))]
    else
      match acc.get? (i % rows.length) with
      | none => acc
      | some baseOffer => acc ++ [generateVariation baseOffer i (dayOf (clock i)) sinVal]) =
    acc ++ [convertRowToFreightOffer row i (dayOf (clock i))]
  rw [if_pos hlt]

theorem genStep_variation (rows : List CSVRow) (clock : Nat → Nat) (sinVal : Nat → ℚ)
    (acc : List FreightOffer) (i : Nat) (row : CSVRow) (base : FreightOffer)
    (hget : rows.get? (i % rows.length) = some row) (hlt : ¬ i < rows.length)
    (hbase : acc.get? (i % rows.length) = some base) :
    genStep rows clock sinVal acc i =
      acc ++ [generateVariation base i (dayOf (clock i)) sinVal] := by
  unfold genStep
  rw [hget]
  show (if i < rows.length then acc ++ [convertRowToFreightOffer row i (dayOf (clock i))]
    else
      match acc.get? (i % rows.length) with
      | none => acc
      | some baseOffer => acc ++ [generateVariation baseOffer i (dayOf (clock i)) sinVal]) =
    acc ++ [generateVariation base i (dayOf (clock i)) sinVal]
  rw [if_neg hlt, hbase]

/-- The generation loop computes, index by index, the closed-form offers. -/
theorem genLoop_spec (rows : List CSVRow) (clock : Nat → Nat) (sinVal : Nat → ℚ)
    (hne : rows ≠ []) :
    ∀ count, genLoop rows clock sinVal count =
      (List.range count).map (expectedOffer rows clock sinVal) := by
  have hn : 0 < rows.length := List.length_pos.mpr hne
  intro count
  induction count with
  | zero => rfl
  | succ c ih =>
      rw [genLoop_succ, ih, List.range_succ, List.map_append, List.map_cons, List.map_nil]
      have hmod : c % rows.length < rows.length := Nat.mod_lt _ hn
      have hget := getD_of_lt rows (c % rows.length) hmod
      by_cases hlt : c < rows.length
      · rw [genStep_direct rows clock sinVal _ c _ hget hlt]
        have hcc : c % rows.length = c := Nat.mod_eq_of_lt hlt
        rw [hcc]
        unfold expectedOffer
        rw [if_pos hlt]
      · have hacc : ((List.range c).map (expectedOffer rows clock sinVal)).get?
            (c % rows.length) = some (expectedOffer rows clock sinVal (c % rows.length)) := by
          rw [List.get?_map, List.get?_range (by omega)]
          rfl
        rw [genStep_variation rows clock sinVal _ c _ _ hget hlt hacc]
        have hexpmod : expectedOffer rows clock sinVal (c % rows.length) =
            convertRowToFreightOffer (rows.getD (c % rows.length) default)
              (c % rows.length) (dayOf (clock (c % rows.length))) := by
          unfold expectedOffer
          rw [if_pos hmod]
        rw [hexpmod]
        conv_rhs => rw [expectedOffer]
        rw [if_neg hlt]

theorem genLoop_length (rows : List CSVRow) (clock : Nat → Nat) (sinVal : Nat → ℚ)
    (hne : rows ≠ []) (count : Nat) :
    (genLoop rows clock sinVal count).length = count := by
  rw [genLoop_spec rows clock sinVal hne count, List.length_map, List.length_range]

theorem genLoop_get? (rows : List CSVRow) (clock : Nat → Nat) (sinVal : Nat → ℚ)
    (hne : rows ≠ []) (count i : Nat) (hi : i < count) :
    (genLoop rows clock sinVal count).get? i =
      some (expectedOffer rows clock sinVal i) := by
  rw [genLoop_spec rows clock sinVal hne count, List.get?_map, List.get?_range hi]
  rfl

/-! ### The generator claims -/

/-- C3: for a CSV with `N ≥ 1` usable rows and a requested count
`1 ≤ count ≤ N`, the generator returns exactly `count` records and the record
at each index `i < count` is the direct conversion of the distinct filtered
row at index `i` — no variation is applied to any of them. -/
theorem generator_direct_conversions (records : List CSVRow) (count : Nat)
    (clock : Nat → Nat) (sinVal : Nat → ℚ)
    (hcount : 1 ≤ count) (hle : count ≤ (records.filter usableFreightRow).length) :
    ∃ offers, generateFreightOffers records count clock sinVal = .ok offers ∧
      offers.length = count ∧
      ∀ i, i < count →
        offers.get? i = some (convertRowToFreightOffer
          ((records.filter usableFreightRow).getD i default) i (dayOf (clock i))) := by
  have hne : records.filter usableFreightRow ≠ [] := by
    intro h
    rw [h] at hle
    simp at hle
    omega
  refine ⟨genLoop (records.filter usableFreightRow) clock sinVal count, ?_, ?_, ?_⟩
  · unfold generateFreightOffers
    rw [if_neg]
    intro h
    rw [h] at hle
    omega
  · exact genLoop_length _ clock sinVal hne count
  · intro i hi
    rw [genLoop_get? _ clock sinVal hne count i hi]
    unfold expectedOffer
    rw [if_pos (by omega)]

/-- C3 witness: one usable row, count 1. -/
theorem generator_direct_conversions_witness :
    ∃ offers, generateFreightOffers
        [{ (default : CSVRow) with
            customerId := "42", contactFirstName := "Ana", freightDescription := "steel" }]
        1 (fun _ => 0) (fun _ => 0) = .ok offers ∧
      offers.length = 1 ∧
      ∀ i, i < 1 →
        offers.get? i = some (convertRowToFreightOffer
          (([{ (default : CSVRow) with
              customerId := "42", contactFirstName := "Ana",
              freightDescription := "steel" }].filter usableFreightRow).getD i default)
          i (dayOf 0)) :=
  generator_direct_conversions _ 1 (fun _ => 0) (fun _ => 0) (by omega) (by decide)

/-- The shape/perturbation contract of `generateVariation` (freight): every
field other than the perturbed ones is preserved; weight and length equal
`max(0.01, base * (0.8 + r * 0.4))` for the seeded random `r ∈ [0, 1)` — hence
inside the ±20 % band exactly when the `0.01` floor does not bind, which is
guaranteed for `base ≥ 0.0125`; boolean flags are re-drawn from seed
thresholds; every loading/unloading date is at least tomorrow. -/
def VariationSpec (base : FreightOffer) (idx today : Nat) (sv : Nat → ℚ) : Prop :=
  (∃ r, 0 ≤ r ∧ r < 1 ∧
    (generateVariation base idx today sv).weight_t =
      max (1 / 100) (base.weight_t * (4 / 5 + r * (2 / 5)))) ∧
  (∃ r, 0 ≤ r ∧ r < 1 ∧
    (generateVariation base idx today sv).length_m =
      max (1 / 100) (base.length_m * (4 / 5 + r * (2 / 5)))) ∧
  (1 / 80 ≤ base.weight_t →
    4 / 5 * base.weight_t ≤ (generateVariation base idx today sv).weight_t ∧
    (generateVariation base idx today sv).weight_t < 6 / 5 * base.weight_t) ∧
  (1 / 80 ≤ base.length_m →
    4 / 5 * base.length_m ≤ (generateVariation base idx today sv).length_m ∧
    (generateVariation base idx today sv).length_m < 6 / 5 * base.length_m) ∧
  (generateVariation base idx today sv).trackable =
    decide (1 / 2 < jsRandom sv (idx * 12345 + 2)) ∧
  (generateVariation base idx today sv).acceptQuotes =
    decide (3 / 5 < jsRandom sv (idx * 12345 + 3)) ∧
  (∀ place ∈ (generateVariation base idx today sv).loadingPlaces,
    today + 1 ≤ place.earliestLoadingDate ∧ today + 1 ≤ place.latestLoadingDate) ∧
  (generateVariation base idx today sv).loadingPlaces.length =
    base.loadingPlaces.length ∧
  (generateVariation base idx today sv).contactPerson = base.contactPerson ∧
  (generateVariation base idx today sv).vehicleProperties = base.vehicleProperties ∧
  (generateVariation base idx today sv).price = base.price ∧
  (generateVariation base idx today sv).paymentDueWithinDays = base.paymentDueWithinDays ∧
  (generateVariation base idx today sv).additionalInformation =
    base.additionalInformation ∧
  (generateVariation base idx today sv).publicRemark = base.publicRemark ∧
  (generateVariation base idx today sv).internalRemark = base.internalRemark ∧
  (generateVariation base idx today sv).logisticsDocumentTypes =
    base.logisticsDocumentTypes ∧
  (generateVariation base idx today sv).closedFreightExchangeSetting =
    base.closedFreightExchangeSetting ∧
  (generateVariation base idx today sv).objectType = "freightOffer"

theorem jsRandom_nonneg (sv : Nat → ℚ) (seed : Nat) : 0 ≤ jsRandom sv seed :=
  Int.fract_nonneg _

theorem jsRandom_lt_one (sv : Nat → ℚ) (seed : Nat) : jsRandom sv seed < 1 :=
  Int.fract_lt_one _

theorem generateVariation_spec (base : FreightOffer) (idx today : Nat) (sv : Nat → ℚ) :
    VariationSpec base idx today sv := by
  have hr0 := jsRandom_nonneg sv (idx * 12345)
  have hr1 := jsRandom_lt_one sv (idx * 12345)
  have hs0 := jsRandom_nonneg sv (idx * 12345 + 1)
  have hs1 := jsRandom_lt_one sv (idx * 12345 + 1)
  unfold VariationSpec
  refine ⟨⟨jsRandom sv (idx * 12345), hr0, hr1, rfl⟩,
    ⟨jsRandom sv (idx * 12345 + 1), hs0, hs1, rfl⟩, ?_, ?_, rfl, rfl, ?_,
    List.length_map _ _, rfl, rfl, rfl, rfl, rfl, rfl, rfl, rfl, rfl, rfl⟩
  · intro hbw
    constructor
    · show 4 / 5 * base.weight_t ≤
        max (1 / 100) (base.weight_t * (4 / 5 + jsRandom sv (idx * 12345) * (2 / 5)))
      refine le_trans ?_ (le_max_right _ _)
      nlinarith
    · show max (1 / 100) (base.weight_t * (4 / 5 + jsRandom sv (idx * 12345) * (2 / 5))) <
        6 / 5 * base.weight_t
      apply max_lt
      · nlinarith
      · nlinarith
  · intro hbl
    constructor
    · show 4 / 5 * base.length_m ≤
        max (1 / 100) (base.length_m * (4 / 5 + jsRandom sv (idx * 12345 + 1) * (2 / 5)))
      refine le_trans ?_ (le_max_right _ _)
      nlinarith
    · show max (1 / 100) (base.length_m * (4 / 5 + jsRandom sv (idx * 12345 + 1) * (2 / 5))) <
        6 / 5 * base.length_m
      apply max_lt
      · nlinarith
      · nlinarith
  · intro place hmem
    rcases List.mem_map.mp hmem with ⟨orig, _, rfl⟩
    by_cases ht : orig.loadingType = "LOADING" <;>
      refine ⟨?_, ?_⟩ <;> simp [ht] <;> omega

/-- C4 (amended): for a CSV with `N ≥ 1` usable rows and `count > N`, the
generator returns exactly `count` records; the first `N` are direct
conversions; each record at index `N ≤ i < count` is `generateVariation` of
the direct-conversion record at `i mod N`; and every variation satisfies
`VariationSpec`: same shape, weight/length scaled into the ±20 % band and then
clamped below at 0.01 (so a base value under 0.0125 yields 0.01, outside the
band), flags re-drawn from seed thresholds, and all loading/unloading dates at
least tomorrow. -/
theorem generator_variations (records : List CSVRow) (count : Nat)
    (clock : Nat → Nat) (sinVal : Nat → ℚ)
    (hn : 1 ≤ (records.filter usableFreightRow).length)
    (hcount : (records.filter usableFreightRow).length < count) :
    ∃ offers, generateFreightOffers records count clock sinVal = .ok offers ∧
      offers.length = count ∧
      (∀ i, i < (records.filter usableFreightRow).length →
        offers.get? i = some (convertRowToFreightOffer
          ((records.filter usableFreightRow).getD i default) i (dayOf (clock i)))) ∧
      (∀ i, (records.filter usableFreightRow).length ≤ i → i < count →
        offers.get? i = some (generateVariation
          (convertRowToFreightOffer
            ((records.filter usableFreightRow).getD
              (i % (records.filter usableFreightRow).length) default)
            (i % (records.filter usableFreightRow).length)
            (dayOf (clock (i % (records.filter usableFreightRow).length))))
          i (dayOf (clock i)) sinVal)) ∧
      (∀ (base : FreightOffer) (idx today : Nat) (sv : Nat → ℚ),
        VariationSpec base idx today sv) := by
  have hne : records.filter usableFreightRow ≠ [] := by
    intro h
    rw [h] at hn
    simp at hn
  refine ⟨genLoop (records.filter usableFreightRow) clock sinVal count, ?_,
    genLoop_length _ clock sinVal hne count, ?_, ?_,
    fun base idx today sv => generateVariation_spec base idx today sv⟩
  · unfold generateFreightOffers
    rw [if_neg (by omega)]
  · intro i hi
    rw [genLoop_get? _ clock sinVal hne count i (by omega)]
    unfold expectedOffer
    rw [if_pos hi]
  · intro i hiN hic
    rw [genLoop_get? _ clock sinVal hne count i hic]
    unfold expectedOffer
    rw [if_neg (by omega)]

/-- C4 witness: one usable row, count 3 — one direct conversion and two
variations. -/
theorem generator_variations_witness :
    ∃ offers, generateFreightOffers
        [{ (default : CSVRow) with
            customerId := "7", contactFirstName := "Bo", freightDescription := "coal" }]
        3 (fun _ => 0) (fun _ => 0) = .ok offers ∧
      offers.length = 3 ∧
      (∀ i, i < ([{ (default : CSVRow) with
            customerId := "7", contactFirstName := "Bo",
            freightDescription := "coal" }].filter usableFreightRow).length →
        offers.get? i = some (convertRowToFreightOffer
          (([{ (default : CSVRow) with
              customerId := "7", contactFirstName := "Bo",
              freightDescription := "coal" }].filter usableFreightRow).getD i default)
          i (dayOf 0))) ∧
      (∀ i, ([{ (default : CSVRow) with
            customerId := "7", contactFirstName := "Bo",
            freightDescription := "coal" }].filter usableFreightRow).length ≤ i → i < 3 →
        offers.get? i = some (generateVariation
          (convertRowToFreightOffer
            (([{ (default : CSVRow) with
                customerId := "7", contactFirstName := "Bo",
                freightDescription := "coal" }].filter usableFreightRow).getD
              (i % ([{ (default : CSVRow) with
                  customerId := "7", contactFirstName := "Bo",
                  freightDescription := "coal" }].filter usableFreightRow).length) default)
            (i % ([{ (default : CSVRow) with
                customerId := "7", contactFirstName := "Bo",
                freightDescription := "coal" }].filter usableFreightRow).length)
            (dayOf 0))
          i (dayOf 0) (fun _ => 0))) ∧
      (∀ (base : FreightOffer) (idx today : Nat) (sv : Nat → ℚ),
        VariationSpec base idx today sv) :=
  generator_variations _ 3 (fun _ => 0) (fun _ => 0) (by decide) (by decide)

/-- The concrete row of the C4 counterexample: usable, with a tiny weight. -/
def cexRow : CSVRow :=
  { (default : CSVRow) with
      customerId := "1", contactFirstName := "A", freightDescription := "d"
      weight_t := "0.001" }

/-- The generator output of the C4 counterexample (one direct conversion and
one variation, fixed clock and sine stand-in). -/
def cexOffers : List FreightOffer :=
  genLoop [cexRow] (fun _ => 0) (fun _ => 0) 2

/-- C4 counterexample: on a usable CSV row with `weight_t = "0.001"` the base
record's weight is `0.001` but the variation's weight is `0.01` — the
`Math.max(0.01, ...)` floor — which exceeds `1.2 ×` the base value, so the
variation is NOT within the ±20 % band the claim states. -/
theorem variation_band_counterexample :
    generateFreightOffers [cexRow] 2 (fun _ => 0) (fun _ => 0) = .ok cexOffers ∧
    (cexOffers.getD 0 default).weight_t = 1 / 1000 ∧
    (cexOffers.getD 1 default).weight_t = 1 / 100 ∧
    ¬ (cexOffers.getD 1 default).weight_t ≤
        6 / 5 * (cexOffers.getD 0 default).weight_t := by
  have hne : [cexRow] ≠ ([] : List CSVRow) := by simp
  have hpn : parseNumber "0.001" = 1 / 1000 := by
    show ((0 : ℕ) : ℚ) + ((1 : ℕ) : ℚ) / (10 : ℚ) ^ 3 = 1 / 1000
    norm_num
  have hbw : (convertRowToFreightOffer cexRow 0 0).weight_t = 1 / 1000 := by
    show jsOrNum (parseNumber "0.001") (555 / 100) = 1 / 1000
    rw [hpn, jsOrNum, if_neg (by norm_num)]
  have hgd0 : cexOffers.getD 0 default =
      expectedOffer [cexRow] (fun _ => 0) (fun _ => 0) 0 := by
    unfold cexOffers
    rw [List.getD_eq_get?,
      genLoop_get? [cexRow] (fun _ => 0) (fun _ => 0) hne 2 0 (by omega)]
    rfl
  have hgd1 : cexOffers.getD 1 default =
      expectedOffer [cexRow] (fun _ => 0) (fun _ => 0) 1 := by
    unfold cexOffers
    rw [List.getD_eq_get?,
      genLoop_get? [cexRow] (fun _ => 0) (fun _ => 0) hne 2 1 (by omega)]
    rfl
  have hexp0 : expectedOffer [cexRow] (fun _ => 0) (fun _ => 0) 0 =
      convertRowToFreightOffer cexRow 0 0 := by
    unfold expectedOffer
    rw [if_pos (by simp)]
    rfl
  have hexp1 : expectedOffer [cexRow] (fun _ => 0) (fun _ => 0) 1 =
      generateVariation (convertRowToFreightOffer cexRow 0 0) 1 0 (fun _ => 0) := by
    unfold expectedOffer
    rw [if_neg (by simp)]
    rfl
  have hw0 : (cexOffers.getD 0 default).weight_t = 1 / 1000 := by
    rw [hgd0, hexp0, hbw]
  have hr : jsRandom (fun _ => (0 : ℚ)) (1 * 12345) = 0 := by
    show Int.fract ((0 : ℚ) * 10000) = 0
    rw [zero_mul, Int.fract_zero]
  have hw1 : (cexOffers.getD 1 default).weight_t = 1 / 100 := by
    rw [hgd1, hexp1]
    show max (1 / 100) ((convertRowToFreightOffer cexRow 0 0).weight_t *
        (4 / 5 + jsRandom (fun _ => 0) (1 * 12345) * (2 / 5))) = 1 / 100
    rw [hbw, hr]
    rw [max_eq_left (by norm_num)]
  refine ⟨rfl, hw0, hw1, ?_⟩
  rw [hw0, hw1]
  norm_num

/-- C5: determinism — two generator runs over the same parsed CSV and count,
sharing the fixed deterministic sine-based pseudo-random source, whose
`new Date()` readings all fall on the same calendar day `d`, produce identical
output: the clock enters the computation only through the calendar day. -/
theorem generator_deterministic (records : List CSVRow) (count : Nat)
    (sinVal : Nat → ℚ) (clock1 clock2 : Nat → Nat) (d : Nat)
    (h1 : ∀ i, i < count → dayOf (clock1 i) = d)
    (h2 : ∀ i, i < count → dayOf (clock2 i) = d) :
    generateFreightOffers records count clock1 sinVal =
      generateFreightOffers records count clock2 sinVal := by
  unfold generateFreightOffers
  by_cases hz : (records.filter usableFreightRow).length = 0
  · rw [if_pos hz, if_pos hz]
  · rw [if_neg hz, if_neg hz]
    have hne : records.filter usableFreightRow ≠ [] := by
      intro h
      rw [h] at hz
      simp at hz
    refine congrArg GenResult.ok ?_
    rw [genLoop_spec _ clock1 sinVal hne count, genLoop_spec _ clock2 sinVal hne count]
    apply List.map_congr_left
    intro i hi
    have hic : i < count := List.mem_range.mp hi
    have hd1 : dayOf (clock1 i) = dayOf (clock2 i) := by
      rw [h1 i hic, h2 i hic]
    unfold expectedOffer
    by_cases hlt : i < (records.filter usableFreightRow).length
    · rw [if_pos hlt, if_pos hlt, hd1]
    · rw [if_neg hlt, if_neg hlt]
      have hmlt : i % (records.filter usableFreightRow).length < count := by
        have := Nat.mod_lt i (show 0 < (records.filter usableFreightRow).length by omega)
        omega
      have hd2 : dayOf (clock1 (i % (records.filter usableFreightRow).length)) =
          dayOf (clock2 (i % (records.filter usableFreightRow).length)) := by
        rw [h1 _ hmlt, h2 _ hmlt]
      rw [hd1, hd2]

/-- C5 witness: the same CSV and count with two different clocks inside the
same calendar day. -/
theorem generator_deterministic_witness :
    generateFreightOffers
        [{ (default : CSVRow) with
            customerId := "1", contactFirstName := "A", freightDescription := "d" }]
        2 (fun _ => 5) (fun _ => 0) =
      generateFreightOffers
        [{ (default : CSVRow) with
            customerId := "1", contactFirstName := "A", freightDescription := "d" }]
        2 (fun _ => 86399999) (fun _ => 0) :=
  generator_deterministic _ 2 (fun _ => 0) (fun _ => 5) (fun _ => 86399999) 0
    (fun _ _ => Nat.div_eq_of_lt (by norm_num))
    (fun _ _ => Nat.div_eq_of_lt (by norm_num))

/-- C6: with zero usable rows (also the case for an unreadable or unparsable
CSV), `generateFreightOffers` does not surface the error to its caller: the
catch block calls `process.exit(1)` and the whole process terminates — even
though the route handler of `POST /api/generate/freight` has a catch branch
written to turn exactly this failure into a 500 response for that call only.
The theorem evaluates the code at the failing condition. -/
theorem generator_zero_rows_exits_process (records : List CSVRow)
    (count : Nat) (clock : Nat → Nat) (sinVal : Nat → ℚ)
    (hzero : (records.filter usableFreightRow).length = 0) :
    generateFreightOffers records count clock sinVal = .processExit 1 := by
  unfold generateFreightOffers
  rw [if_pos hzero]

/-- C6 witness: an empty CSV (zero usable rows) at the default count. -/
theorem generator_zero_rows_exits_process_witness :
    generateFreightOffers [] 1000 (fun _ => 0) (fun _ => 0) = .processExit 1 :=
  generator_zero_rows_exits_process [] 1000 (fun _ => 0) (fun _ => 0) rfl

end Timocom
